/-
  Verification development for the risc0-social-verifier repository.

  Shallow embedding of the guest program (guest/src/main.rs) and the host
  coordinator (host/src/main.rs).  Rust `String`/`&str` values are modelled
  as their UTF-8 byte sequences (`List Nat`, each element < 256), so that
  `len()`, `starts_with` and `as_bytes()` translate directly.  Machine
  integers (u64, u8, i64) are modelled as `Nat`/`Int` with explicit
  reductions mod 2^64 where the source performs a wrapping cast.
  External collaborators (the risc0 proving engine, bincode, chrono) are
  modelled at their interfaces: the proving engine and the serializer are
  function parameters of the host operations; chrono's RFC-3339 parser is
  implemented for the `YYYY-MM-DDTHH:MM:SS[.frac]Z` shape, the only shape
  the program ever feeds it (both mock profiles carry such timestamps),
  and the guest's wall-clock read `chrono::Utc::now()` is made an explicit
  `now : Int` argument threaded through the execution.
-/
import Mathlib

namespace SocialVerifier

/-- Rust strings modelled as UTF-8 byte sequences. -/
abbrev Str := List Nat

/-- Bytes of an ASCII string literal (agrees with UTF-8 on ASCII;
    every literal in the source is ASCII). -/
def strBytes (s : String) : Str := s.toList.map Char.toNat

/-! ## SHA-256 (the `sha2` crate's `Sha256`, modelled bit-exactly) -/

def w32 : Nat := 4294967296

def rotr (n x : Nat) : Nat := ((x >>> n) ||| (x <<< (32 - n))) % w32

def sigma0 (x : Nat) : Nat := (rotr 7 x) ^^^ (rotr 18 x) ^^^ (x >>> 3)

def sigma1 (x : Nat) : Nat := (rotr 17 x) ^^^ (rotr 19 x) ^^^ (x >>> 10)

def bigSigma0 (x : Nat) : Nat := (rotr 2 x) ^^^ (rotr 13 x) ^^^ (rotr 22 x)

def bigSigma1 (x : Nat) : Nat := (rotr 6 x) ^^^ (rotr 11 x) ^^^ (rotr 25 x)

def shaK : List Nat :=
  [1116352408, 1899447441, 3049323471, 3921009573,
   961987163, 1508970993, 2453635748, 2870763221,
   3624381080, 310598401, 607225278, 1426881987,
   1925078388, 2162078206, 2614888103, 3248222580,
   3835390401, 4022224774, 264347078, 604807628,
   770255983, 1249150122, 1555081692, 1996064986,
   2554220882, 2821834349, 2952996808, 3210313671,
   3336571891, 3584528711, 113926993, 338241895,
   666307205, 773529912, 1294757372, 1396182291,
   1695183700, 1986661051, 2177026350, 2456956037,
   2730485921, 2820302411, 3259730800, 3345764771,
   3516065817, 3600352804, 4094571909, 275423344,
   430227734, 506948616, 659060556, 883997877,
   958139571, 1322822218, 1537002063, 1747873779,
   1955562222, 2024104815, 2227730452, 2361852424,
   2428436474, 2756734187, 3204031479, 3329325298]

def shaH0 : List Nat :=
  [1779033703, 3144134277, 1013904242, 2773480762,
   1359893119, 2600822924, 528734635, 1541459225]

/-- Big-endian 8-byte encoding of a 64-bit length. -/
def be64 (n : Nat) : Str :=
  [(n >>> 56) % 256, (n >>> 48) % 256, (n >>> 40) % 256, (n >>> 32) % 256,
   (n >>> 24) % 256, (n >>> 16) % 256, (n >>> 8) % 256, n % 256]

/-- SHA-256 padding: 0x80, zeros to 56 mod 64, then the bit length big-endian. -/
def padMessage (msg : Str) : Str :=
  msg ++ [128] ++ List.replicate ((119 - (msg.length % 64)) % 64) 0 ++ be64 (msg.length * 8)

/-- Big-endian 32-bit words from bytes. -/
def toWords : Str → List Nat
  | a :: b :: c :: d :: rest => (((a * 256 + b) * 256 + c) * 256 + d) :: toWords rest
  | _ => []

def blocksOfAux : Nat → List Nat → List (List Nat)
  | 0, _ => []
  | _, [] => []
  | fuel + 1, ws => ws.take 16 :: blocksOfAux fuel (ws.drop 16)

/-- Split a word list into 16-word blocks. -/
def blocksOf (ws : List Nat) : List (List Nat) := blocksOfAux ws.length ws

/-- One step of the message-schedule extension. -/
def scheduleStep (ws : List Nat) : List Nat :=
  let n := ws.length
  ws ++ [(ws.getD (n - 16) 0 + sigma0 (ws.getD (n - 15) 0) +
          ws.getD (n - 7) 0 + sigma1 (ws.getD (n - 2) 0)) % w32]

/-- Extend a 16-word block to the 64-word schedule. -/
def schedule (block : List Nat) : List Nat :=
  (List.range 48).foldl (fun ws _ => scheduleStep ws) block

/-- One compression round on the 8-word state. -/
def shaRound (st : List Nat) (kw : Nat × Nat) : List Nat :=
  match st with
  | [a, b, c, d, e, f, g, h] =>
    let ch := (e &&& f) ^^^ ((e ^^^ 4294967295) &&& g)
    let t1 := (h + bigSigma1 e + ch + kw.1 + kw.2) % w32
    let maj := (a &&& b) ^^^ (a &&& c) ^^^ (b &&& c)
    let t2 := (bigSigma0 a + maj) % w32
    [(t1 + t2) % w32, a, b, c, (d + t1) % w32, e, f, g]
  | _ => st

def compressBlock (h : List Nat) (block : List Nat) : List Nat :=
  let st := ((shaK.zip (schedule block))).foldl shaRound h
  (h.zip st).map (fun p => (p.1 + p.2) % w32)

def wordBytes (n : Nat) : Str :=
  [(n >>> 24) % 256, (n >>> 16) % 256, (n >>> 8) % 256, n % 256]

/-- SHA-256 digest (32 bytes) of a byte string. -/
def sha256 (msg : Str) : Str :=
  (((blocksOf (toWords (padMessage msg))).foldl compressBlock shaH0).map wordBytes).flatten

/-! ## Guest program data model (guest/src/main.rs) -/

inductive SocialPlatform
  | Twitter
  | Discord
  | Github
  | Telegram
  | LinkedIn
deriving DecidableEq, Repr

structure VerificationInput where
  platform : SocialPlatform
  oauth_token : Str
  wallet_address : Str
  timestamp : Nat
  nonce : Nat
  expected_account_id : Option Str
deriving DecidableEq, Repr

inductive VerificationType
  | NewAccount
  | ReVerification
  | AccountUpdate
deriving DecidableEq, Repr

/-- Output record committed to the journal.  The Rust struct declares the
    fields `nonce`, `verification_type` and `account_consistency_score` on
    every record, but the struct literals in `verify_discord_account`,
    `verify_github_account`, `verify_telegram_account` and
    `verify_linkedin_account` omit them (as written those literals do not
    even compile); the embedding records a field a literal omits as `none`
    and a field it sets to `v` as `some v`. -/
structure VerificationOutput where
  social_account_hash : Str
  wallet_address : Str
  platform : SocialPlatform
  account_age : Nat
  follower_count : Nat
  timestamp : Nat
  nonce : Option Nat
  social_account_id : Str
  verification_type : Option VerificationType
  account_consistency_score : Option Nat
  verification_success : Bool
deriving DecidableEq, Repr

structure TwitterMetrics where
  followers_count : Nat
  following_count : Nat
  tweet_count : Nat
deriving DecidableEq, Repr

structure TwitterUserData where
  id : Str
  username : Str
  name : Str
  created_at : Str
  public_metrics : TwitterMetrics
  verified : Option Bool
deriving DecidableEq, Repr

structure DiscordUserData where
  id : Str
  username : Str
  discriminator : Str
  verified : Option Bool
  email : Option Str
deriving DecidableEq, Repr

structure GithubUserData where
  id : Nat
  login : Str
  name : Option Str
  created_at : Str
  followers : Nat
  following : Nat
  public_repos : Nat
deriving DecidableEq, Repr

/-! ## chrono's RFC-3339 parser, modelled at the interface

The guest calls `chrono::DateTime::parse_from_rfc3339` only on the two mock
profile timestamps, both of the shape `YYYY-MM-DDTHH:MM:SS[.frac]Z`; the
model implements exactly that shape (returning epoch seconds) and answers
`none` elsewhere. -/

def isDigit (c : Nat) : Bool := 48 ≤ c && c ≤ 57

def digitsVal (l : List Nat) : Nat := l.foldl (fun a c => a * 10 + (c - 48)) 0

/-- A run of fraction digits terminated by the zone letter `Z`. -/
def digitsThenZ : Str → Bool
  | [90] => true
  | c :: rest => isDigit c && digitsThenZ rest
  | [] => false

/-- The tail after `HH:MM:SS`: either `Z` or `.fracZ`. -/
def zoneTail : Str → Bool
  | [90] => true
  | 46 :: rest => digitsThenZ rest
  | _ => false

def isLeap (y : Nat) : Bool := (y % 4 == 0 && y % 100 != 0) || y % 400 == 0

def daysInMonth (y m : Nat) : Nat :=
  match m with
  | 1 => 31 | 2 => if isLeap y then 29 else 28 | 3 => 31 | 4 => 30 | 5 => 31 | 6 => 30
  | 7 => 31 | 8 => 31 | 9 => 30 | 10 => 31 | 11 => 30 | _ => 31

def daysBeforeMonth (y m : Nat) : Nat :=
  ((List.range (m - 1)).map (fun i => daysInMonth y (i + 1))).foldl (· + ·) 0

def daysSinceEpoch (y m d : Nat) : Nat :=
  ((List.range (y - 1970)).map (fun i => if isLeap (1970 + i) then 366 else 365)).foldl (· + ·) 0
    + daysBeforeMonth y m + (d - 1)

def parse_from_rfc3339 (s : Str) : Option Int :=
  match s with
  | y1 :: y2 :: y3 :: y4 :: 45 :: m1 :: m2 :: 45 :: d1 :: d2 :: 84 ::
      h1 :: h2 :: 58 :: n1 :: n2 :: 58 :: s1 :: s2 :: zone =>
    if ([y1, y2, y3, y4, m1, m2, d1, d2, h1, h2, n1, n2, s1, s2].all isDigit && zoneTail zone) then
      let y := digitsVal [y1, y2, y3, y4]
      let mo := digitsVal [m1, m2]
      let d := digitsVal [d1, d2]
      let h := digitsVal [h1, h2]
      let mi := digitsVal [n1, n2]
      let se := digitsVal [s1, s2]
      if 1970 ≤ y && 1 ≤ mo && mo ≤ 12 && 1 ≤ d && d ≤ daysInMonth y mo
          && h ≤ 23 && mi ≤ 59 && se ≤ 59 then
        some (((daysSinceEpoch y mo d * 24 + h) * 60 + mi) * 60 + se : Nat)
      else none
    else none
  | _ => none

/-! ## Guest program functions -/

def twoPow64 : Int := 18446744073709551616

/-- `calculate_account_age`: the source reads `chrono::Utc::now()`; the
    wall-clock value read is the explicit `now` argument (epoch seconds).
    `duration.num_seconds() as u64` is the wrapping i64→u64 cast. -/
def calculate_account_age (created_at : Str) (now : Int) : Nat :=
  match parse_from_rfc3339 created_at with
  | some created => ((now - created) % twoPow64).toNat
  | none => 0

def bearerTag : Str := strBytes "Bearer "

def ghpTag : Str := strBytes "ghp_"

def ghoTag : Str := strBytes "gho_"

def validate_oauth_token (token : Str) (platform : SocialPlatform) : Bool :=
  if token.length < 10 then false
  else
    match platform with
    | .Twitter => bearerTag.isPrefixOf token || token.length > 20
    | .Discord => token.length > 15
    | .Github => ghpTag.isPrefixOf token || ghoTag.isPrefixOf token
    | _ => token.length > 10

/-- Rust `format!("{:?}", platform)`: the derived Debug name of the variant. -/
def debugTag : SocialPlatform → Str
  | .Twitter => strBytes "Twitter"
  | .Discord => strBytes "Discord"
  | .Github => strBytes "Github"
  | .Telegram => strBytes "Telegram"
  | .LinkedIn => strBytes "LinkedIn"

/-- The byte string fed to the hasher: platform tag then account id. -/
def hashPreimage (platform : SocialPlatform) (account_id : Str) : Str :=
  debugTag platform ++ account_id

def generate_social_account_hash (platform : SocialPlatform) (account_id : Str) : Str :=
  sha256 (hashPreimage platform account_id)

def determine_verification_type (input : VerificationInput) (account_id : Str) :
    VerificationType :=
  match input.expected_account_id with
  | some expected_id =>
    if expected_id = account_id then .ReVerification else .AccountUpdate
  | none => .NewAccount

def calculate_consistency_score (verification_type : VerificationType)
    (account_data : Str) : Nat :=
  match verification_type with
  | .NewAccount => 100
  | .ReVerification => if account_data.length > 0 then 95 else 50
  | .AccountUpdate => 25

def create_failed_verification (input : VerificationInput) : VerificationOutput :=
  { social_account_hash := List.replicate 32 0
    wallet_address := input.wallet_address
    platform := input.platform
    account_age := 0
    follower_count := 0
    timestamp := input.timestamp
    nonce := some input.nonce
    social_account_id := []
    verification_type := some .NewAccount
    account_consistency_score := some 0
    verification_success := false }

def invalidTokenMsg : Str := strBytes "Invalid token"

def simulate_twitter_api_call (oauth_token : Str) : Except Str TwitterUserData :=
  if oauth_token.length < 10 then .error invalidTokenMsg
  else
    .ok { id := strBytes "123456789"
          username := strBytes "testuser"
          name := strBytes "Test User"
          created_at := strBytes "2020-01-01T00:00:00.000Z"
          public_metrics := { followers_count := 150, following_count := 100, tweet_count := 500 }
          verified := some false }

def simulate_discord_api_call (oauth_token : Str) : Except Str DiscordUserData :=
  if oauth_token.length < 10 then .error invalidTokenMsg
  else
    .ok { id := strBytes "987654321"
          username := strBytes "testuser"
          discriminator := strBytes "1234"
          verified := some true
          email := some (strBytes "test@example.com") }

def simulate_github_api_call (oauth_token : Str) : Except Str GithubUserData :=
  if oauth_token.length < 10 then .error invalidTokenMsg
  else
    .ok { id := 12345
          login := strBytes "testuser"
          name := some (strBytes "Test User")
          created_at := strBytes "2019-06-01T00:00:00Z"
          followers := 25
          following := 50
          public_repos := 10 }

def verify_twitter_account (input : VerificationInput) (now : Int) : VerificationOutput :=
  match simulate_twitter_api_call input.oauth_token with
  | .ok data =>
    let account_age := calculate_account_age data.created_at now
    let verification_type := determine_verification_type input data.id
    let consistency_score := calculate_consistency_score verification_type data.id
    let social_account_hash := generate_social_account_hash .Twitter data.id
    { social_account_hash
      wallet_address := input.wallet_address
      platform := .Twitter
      account_age
      follower_count := data.public_metrics.followers_count
      timestamp := input.timestamp
      nonce := some input.nonce
      social_account_id := data.id
      verification_type := some verification_type
      account_consistency_score := some consistency_score
      verification_success := true }
  | .error _ => create_failed_verification input

def verify_discord_account (input : VerificationInput) : VerificationOutput :=
  match simulate_discord_api_call input.oauth_token with
  | .ok data =>
    { social_account_hash := generate_social_account_hash .Discord data.id
      wallet_address := input.wallet_address
      platform := .Discord
      account_age := 0
      follower_count := 0
      timestamp := input.timestamp
      nonce := none
      social_account_id := data.id
      verification_type := none
      account_consistency_score := none
      verification_success := true }
  | .error _ =>
    { social_account_hash := List.replicate 32 0
      wallet_address := input.wallet_address
      platform := .Discord
      account_age := 0
      follower_count := 0
      timestamp := input.timestamp
      nonce := none
      social_account_id := []
      verification_type := none
      account_consistency_score := none
      verification_success := false }

def verify_github_account (input : VerificationInput) (now : Int) : VerificationOutput :=
  match simulate_github_api_call input.oauth_token with
  | .ok data =>
    { social_account_hash := generate_social_account_hash .Github (strBytes (toString data.id))
      wallet_address := input.wallet_address
      platform := .Github
      account_age := calculate_account_age data.created_at now
      follower_count := data.followers
      timestamp := input.timestamp
      nonce := none
      social_account_id := strBytes (toString data.id)
      verification_type := none
      account_consistency_score := none
      verification_success := true }
  | .error _ =>
    { social_account_hash := List.replicate 32 0
      wallet_address := input.wallet_address
      platform := .Github
      account_age := 0
      follower_count := 0
      timestamp := input.timestamp
      nonce := none
      social_account_id := []
      verification_type := none
      account_consistency_score := none
      verification_success := false }

def verify_telegram_account (input : VerificationInput) : VerificationOutput :=
  { social_account_hash := List.replicate 32 0
    wallet_address := input.wallet_address
    platform := .Telegram
    account_age := 0
    follower_count := 0
    timestamp := input.timestamp
    nonce := none
    social_account_id := []
    verification_type := none
    account_consistency_score := none
    verification_success := false }

def verify_linkedin_account (input : VerificationInput) : VerificationOutput :=
  { social_account_hash := List.replicate 32 0
    wallet_address := input.wallet_address
    platform := .LinkedIn
    account_age := 0
    follower_count := 0
    timestamp := input.timestamp
    nonce := none
    social_account_id := []
    verification_type := none
    account_consistency_score := none
    verification_success := false }

/-- The guest `main`: one `env::read`, validation gate, platform dispatch,
    one `env::commit` of the returned record.  `now` is the wall-clock value
    `chrono::Utc::now()` reads during the execution. -/
def guestMain (input : VerificationInput) (now : Int) : VerificationOutput :=
  if !validate_oauth_token input.oauth_token input.platform then
    create_failed_verification input
  else
    match input.platform with
    | .Twitter => verify_twitter_account input now
    | .Discord => verify_discord_account input
    | .Github => verify_github_account input now
    | .Telegram => verify_telegram_account input
    | .LinkedIn => verify_linkedin_account input

/-- Convenience name for the fixed account id each simulated adapter returns
    (`simulate_*_api_call` always answers with the same mock profile). -/
def mockId : SocialPlatform → Str
  | .Twitter => strBytes "123456789"
  | .Discord => strBytes "987654321"
  | .Github => strBytes (toString (12345 : Nat))
  | .Telegram => []
  | .LinkedIn => []

/-- `id` is an account id actually produced by one of the simulated adapters
    (the resolution engine's only outputs in this repository). -/
def resolvedAccountId (id : Str) : Prop :=
  (∃ tok d, simulate_twitter_api_call tok = Except.ok d ∧ d.id = id) ∨
  (∃ tok d, simulate_discord_api_call tok = Except.ok d ∧ d.id = id) ∨
  (∃ tok d, simulate_github_api_call tok = Except.ok d ∧ strBytes (toString d.id) = id)

/-! ## Host coordinator (host/src/main.rs)

The proving engine, `bincode` and the guest binary are external
collaborators; they enter the host operations as function parameters over an
opaque receipt type `R`.  `Receipt::verify` returns `Result<(), _>` in the
source, so it is modelled as `R → Except EngineError Unit`;
`bincode::deserialize`'s error content is never inspected, so it is an
`Option`. -/

namespace Host

/-- Failure modes `risc0_zkvm::Receipt::verify` can report (external engine). -/
inductive EngineError
  | invalidProof
  | imageMismatch
  | otherFailure
deriving DecidableEq, Repr

/-- Errors `verify_proof` propagates through `?`. -/
inductive HostError
  | deserializeError
  | verifyError (e : EngineError)
deriving DecidableEq, Repr

/-- The host's own `VerificationInput` struct (no nonce, no expected id). -/
structure VerificationInput where
  platform : SocialPlatform
  oauth_token : Str
  wallet_address : Str
  timestamp : Nat
deriving DecidableEq, Repr

/-- The host's own `VerificationOutput` struct. -/
structure VerificationOutput where
  social_account_hash : Str
  wallet_address : Str
  platform : SocialPlatform
  account_age : Nat
  follower_count : Nat
  timestamp : Nat
  social_account_id : Str
  verification_success : Bool
deriving DecidableEq, Repr

structure ProofResult where
  verification_output : VerificationOutput
  receipt : Str
  proof_hash : Str
deriving DecidableEq, Repr

/-- Errors `verify_social_account` propagates: the prover failing, or the
    journal failing to decode. -/
inductive ProveError (PErr : Type)
  | proveFailed (e : PErr)
  | decodeFailed
deriving DecidableEq

/-- `calculate_proof_hash`: SHA-256 over the receipt's journal bytes. -/
def calculate_proof_hash (journal_bytes : Str) : Str := sha256 journal_bytes

/-- `SocialVerificationService::verify_proof`:
    `bincode::deserialize(receipt_bytes)?`, then `receipt.verify(GUEST_BINARY)?`,
    then `Ok(true)`.  Both `?`s propagate on the error channel. -/
def verify_proof {R : Type} (deserialize : Str → Option R)
    (receiptVerify : R → Except EngineError Unit) (receipt_bytes : Str) :
    Except HostError Bool :=
  match deserialize receipt_bytes with
  | none => Except.error HostError.deserializeError
  | some receipt =>
    match receiptVerify receipt with
    | Except.error e => Except.error (HostError.verifyError e)
    | Except.ok _ => Except.ok true

/-- `SocialVerificationService::verify_social_account`: build the input with
    the current time, drive the prover, decode the journal, hash the journal
    bytes, serialize the receipt. -/
def verify_social_account {R PErr : Type}
    (prover : VerificationInput → Except PErr R)
    (decode : R → Option VerificationOutput)
    (journalBytes : R → Str) (serialize : R → Str)
    (now : Nat) (platform : SocialPlatform) (oauth_token wallet_address : Str) :
    Except (ProveError PErr) ProofResult :=
  let input : VerificationInput :=
    { platform := platform, oauth_token := oauth_token,
      wallet_address := wallet_address, timestamp := now }
  match prover input with
  | Except.error e => Except.error (ProveError.proveFailed e)
  | Except.ok receipt =>
    match decode receipt with
    | none => Except.error ProveError.decodeFailed
    | some verification_output =>
      Except.ok { verification_output := verification_output
                  receipt := serialize receipt
                  proof_hash := calculate_proof_hash (journalBytes receipt) }

end Host

/-! ## Helper lemmas -/

theorem validate_length {tok : Str} {p : SocialPlatform}
    (h : validate_oauth_token tok p = true) : 10 ≤ tok.length := by
  unfold validate_oauth_token at h
  by_cases hl : tok.length < 10
  · simp [hl] at h
  · omega

theorem verify_twitter_account_eq (inp : VerificationInput) (now : Int) :
    verify_twitter_account inp now =
      if inp.oauth_token.length < 10 then create_failed_verification inp
      else
        { social_account_hash := generate_social_account_hash .Twitter (strBytes "123456789")
          wallet_address := inp.wallet_address
          platform := .Twitter
          account_age := calculate_account_age (strBytes "2020-01-01T00:00:00.000Z") now
          follower_count := 150
          timestamp := inp.timestamp
          nonce := some inp.nonce
          social_account_id := strBytes "123456789"
          verification_type := some (determine_verification_type inp (strBytes "123456789"))
          account_consistency_score :=
            some (calculate_consistency_score
              (determine_verification_type inp (strBytes "123456789")) (strBytes "123456789"))
          verification_success := true } := by
  unfold verify_twitter_account simulate_twitter_api_call
  by_cases h : inp.oauth_token.length < 10 <;> simp [h]

theorem verify_discord_account_eq (inp : VerificationInput) :
    verify_discord_account inp =
      if inp.oauth_token.length < 10 then
        { social_account_hash := List.replicate 32 0
          wallet_address := inp.wallet_address
          platform := .Discord
          account_age := 0
          follower_count := 0
          timestamp := inp.timestamp
          nonce := none
          social_account_id := []
          verification_type := none
          account_consistency_score := none
          verification_success := false }
      else
        { social_account_hash := generate_social_account_hash .Discord (strBytes "987654321")
          wallet_address := inp.wallet_address
          platform := .Discord
          account_age := 0
          follower_count := 0
          timestamp := inp.timestamp
          nonce := none
          social_account_id := strBytes "987654321"
          verification_type := none
          account_consistency_score := none
          verification_success := true } := by
  unfold verify_discord_account simulate_discord_api_call
  by_cases h : inp.oauth_token.length < 10 <;> simp [h]

theorem verify_github_account_eq (inp : VerificationInput) (now : Int) :
    verify_github_account inp now =
      if inp.oauth_token.length < 10 then
        { social_account_hash := List.replicate 32 0
          wallet_address := inp.wallet_address
          platform := .Github
          account_age := 0
          follower_count := 0
          timestamp := inp.timestamp
          nonce := none
          social_account_id := []
          verification_type := none
          account_consistency_score := none
          verification_success := false }
      else
        { social_account_hash := generate_social_account_hash .Github (strBytes (toString (12345 : Nat)))
          wallet_address := inp.wallet_address
          platform := .Github
          account_age := calculate_account_age (strBytes "2019-06-01T00:00:00Z") now
          follower_count := 25
          timestamp := inp.timestamp
          nonce := none
          social_account_id := strBytes (toString (12345 : Nat))
          verification_type := none
          account_consistency_score := none
          verification_success := true } := by
  unfold verify_github_account simulate_github_api_call
  by_cases h : inp.oauth_token.length < 10 <;> simp [h]

theorem verify_proof_ne_ok_false {R : Type} (deserialize : Str → Option R)
    (receiptVerify : R → Except Host.EngineError Unit) (bytes : Str) :
    Host.verify_proof deserialize receiptVerify bytes ≠ Except.ok false := by
  unfold Host.verify_proof
  rcases hd : deserialize bytes with _ | r
  · simp [hd]
  · rcases hv : receiptVerify r with e | u <;> simp [hd, hv]

theorem verify_proof_ok_iff {R : Type} (deserialize : Str → Option R)
    (receiptVerify : R → Except Host.EngineError Unit) (bytes : Str) :
    Host.verify_proof deserialize receiptVerify bytes = Except.ok true ↔
      ∃ r, deserialize bytes = some r ∧ receiptVerify r = Except.ok () := by
  unfold Host.verify_proof
  rcases hd : deserialize bytes with _ | r
  · simp [hd]
  · rcases hv : receiptVerify r with e | u <;> simp [hd, hv]

theorem verify_proof_deser_none {R : Type} (deserialize : Str → Option R)
    (receiptVerify : R → Except Host.EngineError Unit) (bytes : Str)
    (h : deserialize bytes = none) :
    Host.verify_proof deserialize receiptVerify bytes
      = Except.error Host.HostError.deserializeError := by
  unfold Host.verify_proof
  simp [h]

theorem verify_proof_engine_error {R : Type} (deserialize : Str → Option R)
    (receiptVerify : R → Except Host.EngineError Unit) (bytes : Str)
    (r : R) (e : Host.EngineError) (hd : deserialize bytes = some r)
    (hv : receiptVerify r = Except.error e) :
    Host.verify_proof deserialize receiptVerify bytes
      = Except.error (Host.HostError.verifyError e) := by
  unfold Host.verify_proof
  simp [hd, hv]

/-! ## Claims -/

/-- C3 counterexample: a concrete engine that reports the (well-formed,
    successfully deserialized) artifact cryptographically invalid.  The claim
    says `verify_proof` then returns the boolean `false`; in fact it returns
    on the error channel and never returns `Ok(false)`. -/
theorem C3_counterexample :
    Host.verify_proof (fun _ : Str => some 0)
        (fun _ : Nat => (Except.error Host.EngineError.invalidProof : Except Host.EngineError Unit))
        (strBytes "artifact")
      = Except.error (Host.HostError.verifyError Host.EngineError.invalidProof) ∧
    Host.verify_proof (fun _ : Str => some 0)
        (fun _ : Nat => (Except.error Host.EngineError.invalidProof : Except Host.EngineError Unit))
        (strBytes "artifact")
      ≠ Except.ok false :=
  ⟨rfl, fun h => nomatch h⟩

/-- C3 (amended): `verify_proof` never returns the boolean `false`; it
    returns `Ok(true)` exactly when deserialization and the engine check both
    succeed, and otherwise uses the error channel — for a malformed artifact
    and for an engine-rejected (invalid or identity-mismatched) proof alike,
    conflating the two failure kinds on that single channel. -/
theorem C3_verify_proof_channels {R : Type} (deserialize : Str → Option R)
    (receiptVerify : R → Except Host.EngineError Unit) (bytes : Str) :
    Host.verify_proof deserialize receiptVerify bytes ≠ Except.ok false
  ∧ (Host.verify_proof deserialize receiptVerify bytes = Except.ok true ↔
      ∃ r, deserialize bytes = some r ∧ receiptVerify r = Except.ok ())
  ∧ (deserialize bytes = none →
      Host.verify_proof deserialize receiptVerify bytes
        = Except.error Host.HostError.deserializeError)
  ∧ (∀ r e, deserialize bytes = some r → receiptVerify r = Except.error e →
      Host.verify_proof deserialize receiptVerify bytes
        = Except.error (Host.HostError.verifyError e)) :=
  ⟨verify_proof_ne_ok_false deserialize receiptVerify bytes,
   verify_proof_ok_iff deserialize receiptVerify bytes,
   verify_proof_deser_none deserialize receiptVerify bytes,
   fun r e hd hv => verify_proof_engine_error deserialize receiptVerify bytes r e hd hv⟩

theorem C3_witness :
    Host.verify_proof (fun _ : Str => (none : Option Unit))
        (fun _ => Except.ok ()) []
      = Except.error Host.HostError.deserializeError :=
  (C3_verify_proof_channels (fun _ : Str => (none : Option Unit))
    (fun _ => Except.ok ()) []).2.2.1 rfl

/-- C4 counterexample: an artifact `[0]` that verifies, and its single-byte
    flip `[1]` which the engine rejects.  The claim says `verify_proof` on
    the flipped artifact returns the boolean `false`; in fact it returns an
    error. -/
theorem C4_counterexample :
    Host.verify_proof (fun b : Str => some b)
        (fun b : Str => if b = [0] then Except.ok () else Except.error Host.EngineError.invalidProof)
        [0] = Except.ok true ∧
    Host.verify_proof (fun b : Str => some b)
        (fun b : Str => if b = [0] then Except.ok () else Except.error Host.EngineError.invalidProof)
        [1] = Except.error (Host.HostError.verifyError Host.EngineError.invalidProof) ∧
    Host.verify_proof (fun b : Str => some b)
        (fun b : Str => if b = [0] then Except.ok () else Except.error Host.EngineError.invalidProof)
        [1] ≠ Except.ok false := by
  exact ⟨rfl, rfl, fun h => nomatch h⟩

/-- C4 (amended): under the engine contract — serialization round-trips, and
    receipts produced by the prover verify — every artifact returned by a
    successful `verify_social_account` is accepted by `verify_proof` with
    `Ok(true)`; a tampered artifact the engine rejects produces an error on
    the error channel, not the boolean `false`. -/
theorem C4_round_trip {R PErr : Type}
    (prover : Host.VerificationInput → Except PErr R)
    (decode : R → Option Host.VerificationOutput)
    (journalBytes serialize : R → Str)
    (deserialize : Str → Option R)
    (receiptVerify : R → Except Host.EngineError Unit)
    (hround : ∀ r, deserialize (serialize r) = some r)
    (hvalid : ∀ inp r, prover inp = Except.ok r → receiptVerify r = Except.ok ())
    (now : Nat) (p : SocialPlatform) (tok wallet : Str) :
    (∀ res, Host.verify_social_account prover decode journalBytes serialize now p tok wallet
        = Except.ok res →
      Host.verify_proof deserialize receiptVerify res.receipt = Except.ok true)
  ∧ (∀ bytes r e, deserialize bytes = some r → receiptVerify r = Except.error e →
      Host.verify_proof deserialize receiptVerify bytes
        = Except.error (Host.HostError.verifyError e)) := by
  constructor
  · intro res hres
    unfold Host.verify_social_account at hres
    rcases hp : prover ⟨p, tok, wallet, now⟩ with e | r
    · simp [hp] at hres
    · rcases hdec : decode r with _ | out
      · simp [hp, hdec] at hres
      · simp [hp, hdec] at hres
        rw [(verify_proof_ok_iff deserialize receiptVerify res.receipt)]
        refine ⟨r, ?_, hvalid _ r hp⟩
        rw [← hres]
        exact hround r
  · exact fun bytes r e hd hv =>
      verify_proof_engine_error deserialize receiptVerify bytes r e hd hv

theorem C4_witness :
    Host.verify_proof (fun b : Str => if b = [7] then some () else none)
        (fun _ : Unit => Except.ok ()) [7] = Except.ok true :=
  (@C4_round_trip Unit Empty (fun _ => Except.ok ())
      (fun _ => some { social_account_hash := [], wallet_address := [],
                       platform := SocialPlatform.Twitter, account_age := 0,
                       follower_count := 0, timestamp := 0,
                       social_account_id := [], verification_success := true })
      (fun _ => []) (fun _ => [7])
      (fun b : Str => if b = [7] then some () else none)
      (fun _ : Unit => Except.ok ())
      (fun _ => rfl) (fun _ _ _ => rfl)
      0 SocialPlatform.Twitter [] []).1
    { verification_output := { social_account_hash := [], wallet_address := [],
                               platform := SocialPlatform.Twitter, account_age := 0,
                               follower_count := 0, timestamp := 0,
                               social_account_id := [], verification_success := true },
      receipt := [7], proof_hash := Host.calculate_proof_hash [] }
    rfl

/-- C6: the credential validator rejects every credential shorter than 10
    bytes on every platform; above that bound it accepts exactly under the
    per-platform shape rule — Twitter: bearer prefix or length > 20;
    Discord: length > 15; Github: one of the two recognized prefixes (a long
    Github credential lacking both is rejected); other platforms:
    length > 10. -/
theorem C6_validator_boundary (tok : Str) (p : SocialPlatform) :
    (tok.length < 10 → validate_oauth_token tok p = false)
  ∧ (10 ≤ tok.length →
      ((validate_oauth_token tok SocialPlatform.Twitter = true ↔
          (bearerTag.isPrefixOf tok = true ∨ 20 < tok.length))
       ∧ (validate_oauth_token tok SocialPlatform.Discord = true ↔ 15 < tok.length)
       ∧ (validate_oauth_token tok SocialPlatform.Github = true ↔
          (ghpTag.isPrefixOf tok = true ∨ ghoTag.isPrefixOf tok = true))))
  ∧ (validate_oauth_token tok SocialPlatform.Telegram = true ↔ 10 < tok.length)
  ∧ (validate_oauth_token tok SocialPlatform.LinkedIn = true ↔ 10 < tok.length) := by
  unfold validate_oauth_token
  by_cases hl : tok.length < 10
  · simp [hl]
    omega
  · simp [hl]

theorem C6_witness :
    validate_oauth_token (strBytes "short") SocialPlatform.Github = false ∧
    validate_oauth_token (strBytes "aaaaaaaaaaaaaaaaaaaaaaaaa") SocialPlatform.Github = false ∧
    validate_oauth_token (strBytes "ghp_abcdefgh") SocialPlatform.Github = true := by
  refine ⟨(C6_validator_boundary (strBytes "short") SocialPlatform.Github).1 (by decide), ?_, ?_⟩
  · have h := ((C6_validator_boundary (strBytes "aaaaaaaaaaaaaaaaaaaaaaaaa")
      SocialPlatform.Github).2.1 (by decide)).2.2
    revert h
    decide
  · have h := ((C6_validator_boundary (strBytes "ghp_abcdefgh")
      SocialPlatform.Github).2.1 (by decide)).2.2
    revert h
    decide

/-- C8: every execution whose input names the Telegram or LinkedIn platform
    reports failure, whatever the credential: either the validator rejects
    the credential (canonical failure record) or the adapterless placeholder
    verifier answers with `verification_success = false`. -/
theorem C8_unsupported_platforms_fail (inp : VerificationInput) (now : Int)
    (h : inp.platform = SocialPlatform.Telegram ∨ inp.platform = SocialPlatform.LinkedIn) :
    (guestMain inp now).verification_success = false := by
  unfold guestMain
  rcases h with h | h <;> rw [h]
  · by_cases hv : validate_oauth_token inp.oauth_token SocialPlatform.Telegram <;>
      simp [hv, verify_telegram_account, create_failed_verification]
  · by_cases hv : validate_oauth_token inp.oauth_token SocialPlatform.LinkedIn <;>
      simp [hv, verify_linkedin_account, create_failed_verification]

theorem C8_witness :
    (guestMain { platform := SocialPlatform.Telegram,
                 oauth_token := strBytes "aaaaaaaaaaaa",
                 wallet_address := [], timestamp := 5, nonce := 7,
                 expected_account_id := none } 0).verification_success = false :=
  C8_unsupported_platforms_fail _ 0 (Or.inl rfl)

/-- C1: every successful output's fingerprint is
    `generate_social_account_hash` of the input platform and the resolved
    stable id — a function of (platform, id) alone — so two executions that
    succeed for the same (platform, id), whatever their credential, wallet
    address, timestamp, nonce or clock reading, carry the identical
    32-byte digest. -/
theorem C1_fingerprint_stability :
    (∀ (inp : VerificationInput) (now : Int),
        (guestMain inp now).verification_success = true →
        (guestMain inp now).social_account_hash =
          generate_social_account_hash inp.platform (guestMain inp now).social_account_id)
  ∧ (∀ (i1 i2 : VerificationInput) (n1 n2 : Int),
        i1.platform = i2.platform →
        (guestMain i1 n1).verification_success = true →
        (guestMain i2 n2).verification_success = true →
        (guestMain i1 n1).social_account_id = (guestMain i2 n2).social_account_id →
        (guestMain i1 n1).social_account_hash = (guestMain i2 n2).social_account_hash) := by
  have main : ∀ (inp : VerificationInput) (now : Int),
      (guestMain inp now).verification_success = true →
      (guestMain inp now).social_account_hash =
        generate_social_account_hash inp.platform (guestMain inp now).social_account_id := by
    intro inp now hs
    unfold guestMain at hs ⊢
    by_cases hv : validate_oauth_token inp.oauth_token inp.platform
    · simp only [hv, Bool.not_true, Bool.false_eq_true, if_false] at hs ⊢
      cases hp : inp.platform
      all_goals simp only [hp] at hs ⊢
      · rw [verify_twitter_account_eq] at hs ⊢
        by_cases hlen : inp.oauth_token.length < 10 <;>
          simp [hlen, create_failed_verification] at hs ⊢
      · rw [verify_discord_account_eq] at hs ⊢
        by_cases hlen : inp.oauth_token.length < 10 <;>
          simp [hlen] at hs ⊢
      · rw [verify_github_account_eq] at hs ⊢
        by_cases hlen : inp.oauth_token.length < 10 <;>
          simp [hlen] at hs ⊢
      · simp [verify_telegram_account] at hs
      · simp [verify_linkedin_account] at hs
    · simp [hv, create_failed_verification] at hs
  refine ⟨main, fun i1 i2 n1 n2 hplat h1 h2 hid => ?_⟩
  rw [main i1 n1 h1, main i2 n2 h2, hplat, hid]

theorem C1_witness :
    (guestMain { platform := SocialPlatform.Twitter,
                 oauth_token := strBytes "Bearer aaaa1111bbbb2222cccc3333",
                 wallet_address := strBytes "0xAAAA", timestamp := 1640995200,
                 nonce := 1, expected_account_id := none } 1700000000).social_account_hash =
    (guestMain { platform := SocialPlatform.Twitter,
                 oauth_token := strBytes "xxxxxxxxxxxxxxxxxxxxxxxxx",
                 wallet_address := strBytes "0xBBBB", timestamp := 1643587200,
                 nonce := 2, expected_account_id := some (strBytes "123456789") } 1712345678).social_account_hash :=
  C1_fingerprint_stability.2 _ _ 1700000000 1712345678 rfl (by decide) (by decide) (by decide)

/-- C2 counterexample: a failing Telegram run (credential passes the length
    gate, the platform has no adapter) whose output carries the input
    timestamp 5, not 0 — so not every numeric field of a failure record is
    zero, contradicting the claim. -/
theorem C2_counterexample :
    (guestMain { platform := SocialPlatform.Telegram,
                 oauth_token := strBytes "aaaaaaaaaaab",
                 wallet_address := [], timestamp := 5, nonce := 7,
                 expected_account_id := none } 0).verification_success = false ∧
    (guestMain { platform := SocialPlatform.Telegram,
                 oauth_token := strBytes "aaaaaaaaaaab",
                 wallet_address := [], timestamp := 5, nonce := 7,
                 expected_account_id := none } 0).timestamp ≠ 0 := by
  decide

/-- C2 (amended): on every failure path the output's fingerprint is the
    all-zero 32-byte digest, the stable account id is empty, account age,
    follower count are zero and the consistency score is zero on the
    branches that set one (the non-Twitter branches omit the field), and the
    success flag is false — but the timestamp echoes the input timestamp and
    the nonce, on the branches that set one, echoes the input nonce; those
    two numeric fields are not zeroed. -/
theorem C2_canonical_failure_shape (inp : VerificationInput) (now : Int)
    (h : (guestMain inp now).verification_success = false) :
    (guestMain inp now).social_account_hash = List.replicate 32 0 ∧
    (guestMain inp now).social_account_id = [] ∧
    (guestMain inp now).account_age = 0 ∧
    (guestMain inp now).follower_count = 0 ∧
    ((guestMain inp now).account_consistency_score = some 0 ∨
      (guestMain inp now).account_consistency_score = none) ∧
    (guestMain inp now).timestamp = inp.timestamp ∧
    ((guestMain inp now).nonce = some inp.nonce ∨ (guestMain inp now).nonce = none) := by
  unfold guestMain at h ⊢
  by_cases hv : validate_oauth_token inp.oauth_token inp.platform
  · simp only [hv, Bool.not_true, Bool.false_eq_true, if_false] at h ⊢
    cases hp : inp.platform
    all_goals simp only [hp] at h ⊢
    · rw [verify_twitter_account_eq] at h ⊢
      by_cases hlen : inp.oauth_token.length < 10 <;>
        simp [hlen, create_failed_verification] at h ⊢
    · rw [verify_discord_account_eq] at h ⊢
      by_cases hlen : inp.oauth_token.length < 10 <;>
        simp [hlen] at h ⊢
    · rw [verify_github_account_eq] at h ⊢
      by_cases hlen : inp.oauth_token.length < 10 <;>
        simp [hlen] at h ⊢
    · simp [verify_telegram_account]
    · simp [verify_linkedin_account]
  · simp [hv, create_failed_verification]

theorem C2_witness :
    (guestMain { platform := SocialPlatform.Telegram,
                 oauth_token := strBytes "bbbbbbbbbbbb",
                 wallet_address := [], timestamp := 11, nonce := 13,
                 expected_account_id := none } 0).social_account_hash = List.replicate 32 0 ∧
    (guestMain { platform := SocialPlatform.Telegram,
                 oauth_token := strBytes "bbbbbbbbbbbb",
                 wallet_address := [], timestamp := 11, nonce := 13,
                 expected_account_id := none } 0).social_account_id = [] ∧
    (guestMain { platform := SocialPlatform.Telegram,
                 oauth_token := strBytes "bbbbbbbbbbbb",
                 wallet_address := [], timestamp := 11, nonce := 13,
                 expected_account_id := none } 0).account_age = 0 ∧
    (guestMain { platform := SocialPlatform.Telegram,
                 oauth_token := strBytes "bbbbbbbbbbbb",
                 wallet_address := [], timestamp := 11, nonce := 13,
                 expected_account_id := none } 0).follower_count = 0 ∧
    ((guestMain { platform := SocialPlatform.Telegram,
                  oauth_token := strBytes "bbbbbbbbbbbb",
                  wallet_address := [], timestamp := 11, nonce := 13,
                  expected_account_id := none } 0).account_consistency_score = some 0 ∨
      (guestMain { platform := SocialPlatform.Telegram,
                   oauth_token := strBytes "bbbbbbbbbbbb",
                   wallet_address := [], timestamp := 11, nonce := 13,
                   expected_account_id := none } 0).account_consistency_score = none) ∧
    (guestMain { platform := SocialPlatform.Telegram,
                 oauth_token := strBytes "bbbbbbbbbbbb",
                 wallet_address := [], timestamp := 11, nonce := 13,
                 expected_account_id := none } 0).timestamp = 11 ∧
    ((guestMain { platform := SocialPlatform.Telegram,
                  oauth_token := strBytes "bbbbbbbbbbbb",
                  wallet_address := [], timestamp := 11, nonce := 13,
                  expected_account_id := none } 0).nonce = some 13 ∨
      (guestMain { platform := SocialPlatform.Telegram,
                   oauth_token := strBytes "bbbbbbbbbbbb",
                   wallet_address := [], timestamp := 11, nonce := 13,
                   expected_account_id := none } 0).nonce = none) :=
  C2_canonical_failure_shape _ 0 (by decide)

/-- C5: classification and score as pure functions of the previous-id option
    and the resolved current id: no previous id gives NewAccount with score
    100; a previous id equal to the (adapter-resolved, hence non-empty)
    current id gives ReVerification with score 95; a differing previous id
    gives AccountUpdate with score 25. -/
theorem C5_classification_scores :
    (∀ (inp : VerificationInput) (id : Str), inp.expected_account_id = none →
        determine_verification_type inp id = VerificationType.NewAccount ∧
        calculate_consistency_score (determine_verification_type inp id) id = 100)
  ∧ (∀ (inp : VerificationInput) (id : Str), resolvedAccountId id →
        inp.expected_account_id = some id →
        determine_verification_type inp id = VerificationType.ReVerification ∧
        calculate_consistency_score (determine_verification_type inp id) id = 95)
  ∧ (∀ (inp : VerificationInput) (prev id : Str), inp.expected_account_id = some prev →
        prev ≠ id →
        determine_verification_type inp id = VerificationType.AccountUpdate ∧
        calculate_consistency_score (determine_verification_type inp id) id = 25) := by
  refine ⟨?_, ?_, ?_⟩
  · intro inp id hnone
    unfold determine_verification_type calculate_consistency_score
    simp [hnone]
  · intro inp id hres hsome
    have hne : id ≠ [] := by
      rcases hres with ⟨tok, d, hok, hid⟩ | ⟨tok, d, hok, hid⟩ | ⟨tok, d, hok, hid⟩
      · unfold simulate_twitter_api_call at hok
        by_cases hl : tok.length < 10 <;> simp [hl] at hok
        rw [← hid, ← hok]
        decide
      · unfold simulate_discord_api_call at hok
        by_cases hl : tok.length < 10 <;> simp [hl] at hok
        rw [← hid, ← hok]
        decide
      · unfold simulate_github_api_call at hok
        by_cases hl : tok.length < 10 <;> simp [hl] at hok
        rw [← hid, ← hok]
        decide
    unfold determine_verification_type calculate_consistency_score
    have hlen : id.length > 0 := List.length_pos.mpr hne
    simp [hsome, hlen]
  · intro inp prev id hsome hne
    unfold determine_verification_type calculate_consistency_score
    simp [hsome, hne]

theorem C5_witness :
    determine_verification_type
        { platform := SocialPlatform.Twitter, oauth_token := [],
          wallet_address := [], timestamp := 0, nonce := 0,
          expected_account_id := some (strBytes "123456789") }
        (strBytes "123456789") = VerificationType.ReVerification ∧
    calculate_consistency_score
        (determine_verification_type
          { platform := SocialPlatform.Twitter, oauth_token := [],
            wallet_address := [], timestamp := 0, nonce := 0,
            expected_account_id := some (strBytes "123456789") }
          (strBytes "123456789"))
        (strBytes "123456789") = 95 :=
  C5_classification_scores.2.1 _ (strBytes "123456789")
    (Or.inl ⟨strBytes "aaaaaaaaaa", _, rfl, rfl⟩) rfl

/-- C7 (code evaluated at the failing input): the guest's account-age
    computation reads the wall clock (`chrono::Utc::now()`, the `now`
    argument of the embedding), so the same Twitter input run under two
    clock readings commits two different outputs — the guest is not a
    function of its input alone. -/
theorem C7_wall_clock_dependence :
    (guestMain { platform := SocialPlatform.Twitter,
                 oauth_token := strBytes "Bearer aaaa1111bbbb2222cccc3333",
                 wallet_address := [], timestamp := 1640995200, nonce := 1,
                 expected_account_id := none } 1700000000).account_age ≠
    (guestMain { platform := SocialPlatform.Twitter,
                 oauth_token := strBytes "Bearer aaaa1111bbbb2222cccc3333",
                 wallet_address := [], timestamp := 1640995200, nonce := 1,
                 expected_account_id := none } 1700000001).account_age ∧
    calculate_account_age (strBytes "2020-01-01T00:00:00.000Z") 1700000000 ≠
    calculate_account_age (strBytes "2020-01-01T00:00:00.000Z") 1700000001 := by
  decide

/-- C9: distinct (platform, id) pairs always produce distinct hash
    preimages — same platform with different ids by left cancellation,
    different platforms with the same id because the five Debug tags are
    pairwise distinct and the tag is part of the preimage — and on the
    spec's example ids the SHA-256 digests themselves differ. -/
theorem C9_fingerprint_discrimination :
    (∀ (p : SocialPlatform) (id1 id2 : Str), id1 ≠ id2 →
        hashPreimage p id1 ≠ hashPreimage p id2)
  ∧ (∀ (p1 p2 : SocialPlatform) (id : Str), p1 ≠ p2 →
        hashPreimage p1 id ≠ hashPreimage p2 id)
  ∧ generate_social_account_hash SocialPlatform.Twitter (strBytes "123456789") ≠
      generate_social_account_hash SocialPlatform.Twitter (strBytes "444555666")
  ∧ generate_social_account_hash SocialPlatform.Twitter (strBytes "123456789") ≠
      generate_social_account_hash SocialPlatform.Discord (strBytes "123456789") := by
  refine ⟨?_, ?_, by decide, by decide⟩
  · intro p id1 id2 hne h
    exact hne (List.append_cancel_left h)
  · intro p1 p2 id hne h
    have hlen : (debugTag p1).length = (debugTag p2).length := by
      have := congrArg List.length h
      simp only [hashPreimage, List.length_append] at this
      omega
    have htag : debugTag p1 = debugTag p2 :=
      (List.append_inj h hlen).1
    revert htag
    cases p1 <;> cases p2 <;> first | exact fun _ => hne rfl | decide

theorem C9_witness :
    hashPreimage SocialPlatform.Github (strBytes "12345") ≠
      hashPreimage SocialPlatform.Github (strBytes "54321") :=
  C9_fingerprint_discrimination.1 SocialPlatform.Github _ _ (by decide)

/-- C10: a credential the validator accepts for Twitter, Discord or Github
    is at least 10 bytes long, which is the only failure condition of the
    corresponding simulated adapter, so the adapter call succeeds and the
    run commits a success record carrying that platform's fixed mock
    account id. -/
theorem C10_validated_token_succeeds :
    (∀ tok, validate_oauth_token tok SocialPlatform.Twitter = true →
        ∃ d, simulate_twitter_api_call tok = Except.ok d)
  ∧ (∀ tok, validate_oauth_token tok SocialPlatform.Discord = true →
        ∃ d, simulate_discord_api_call tok = Except.ok d)
  ∧ (∀ tok, validate_oauth_token tok SocialPlatform.Github = true →
        ∃ d, simulate_github_api_call tok = Except.ok d)
  ∧ (∀ (inp : VerificationInput) (now : Int),
      (inp.platform = SocialPlatform.Twitter ∨ inp.platform = SocialPlatform.Discord ∨
        inp.platform = SocialPlatform.Github) →
      validate_oauth_token inp.oauth_token inp.platform = true →
      (guestMain inp now).verification_success = true ∧
      (guestMain inp now).social_account_id = mockId inp.platform) := by
  have hlen10 : ∀ (tok : Str) (p : SocialPlatform),
      validate_oauth_token tok p = true → ¬ tok.length < 10 := by
    intro tok p h
    have := validate_length h
    omega
  refine ⟨?_, ?_, ?_, ?_⟩
  · intro tok h
    unfold simulate_twitter_api_call
    simp [hlen10 tok _ h]
  · intro tok h
    unfold simulate_discord_api_call
    simp [hlen10 tok _ h]
  · intro tok h
    unfold simulate_github_api_call
    simp [hlen10 tok _ h]
  · intro inp now hp hv
    unfold guestMain
    simp only [hv, Bool.not_true, Bool.false_eq_true, if_false]
    rcases hp with hp | hp | hp <;> rw [hp] <;> rw [hp] at hv
    · rw [verify_twitter_account_eq]
      simp [hlen10 _ _ hv, mockId]
    · rw [verify_discord_account_eq]
      simp [hlen10 _ _ hv, mockId]
    · rw [verify_github_account_eq]
      simp [hlen10 _ _ hv, mockId]

theorem C10_witness :
    (guestMain { platform := SocialPlatform.Discord,
                 oauth_token := strBytes "discord_token_16x",
                 wallet_address := [], timestamp := 3, nonce := 4,
                 expected_account_id := none } 0).verification_success = true ∧
    (guestMain { platform := SocialPlatform.Discord,
                 oauth_token := strBytes "discord_token_16x",
                 wallet_address := [], timestamp := 3, nonce := 4,
                 expected_account_id := none } 0).social_account_id =
      mockId SocialPlatform.Discord :=
  C10_validated_token_succeeds.2.2.2 _ 0 (Or.inr (Or.inl rfl)) (by decide)

end SocialVerifier
